import Mathlib

/-!
Formal model of the two command-line tools of this repository:

* `python-scripts/extract_pose.py` — a single-image pose keypoint extractor
  that prints one JSON payload and exits with status 0 or 1;
* `python-scripts/diagnose.py` — a dependency prober that prints one JSON
  diagnostic object and always exits with status 0.

The scripts are embedded shallowly.  External effects (file-system lookup,
image decoding by `cv2.imread`, model inference by `mediapipe`) are modelled
as fields of an explicit environment record; an `Except` value models a call
that may raise a Python exception, and an `Option` inside models the call
returning `None`.  Real-valued quantities (coordinates, visibility scores,
confidence) are modelled as rationals, so the arithmetic of the model is the
ideal arithmetic the float code approximates.  Exit codes are naturals.
-/

/-- A single landmark as produced by the pose model: normalized coordinates
and a visibility score (`landmark.x/y/z/visibility` in the script). -/
structure Landmark where
  x : ℚ
  y : ℚ
  z : ℚ
  visibility : ℚ
deriving DecidableEq

/-- A decoded image; the script only ever reads `image.shape[:2]`
(height and width in pixels). -/
structure Image where
  width : Nat
  height : Nat
deriving DecidableEq

/-- One entry of the `keypoints` array of a Success payload
(the dict built in the landmark loop of `extract_keypoints`). -/
structure Keypoint where
  id : Nat
  name : String
  x : ℚ
  y : ℚ
  z : ℚ
  visibility : ℚ
deriving DecidableEq

/-- The JSON object the extractor prints on stdout.  Keys that appear only
in some payloads of the script (`error`, `keypoints_count`,
`image_dimensions`, `pose_detected`, `traceback`) are `Option`s defaulting
to `none` (key absent). -/
structure Payload where
  success : Bool
  error : Option String := none
  keypoints : List Keypoint := []
  keypoints_count : Option Nat := none
  confidence : ℚ := 0
  image_dimensions : Option (Nat × Nat) := none
  pose_detected : Option Bool := none
  traceback : Option String := none
deriving DecidableEq

/-- A Python exception: the message `str(e)` and the trace
`traceback.format_exc()`. -/
structure PyException where
  msg : String
  tb : String
deriving DecidableEq

/-- Environment of one `extract_keypoints` call.  `isFile` is the result of
`Path(image_path).is_file()`; `imread` models `cv2.imread` (`error` = the
call, or the subsequent `cvtColor`, raises; `ok none` = `imread` returned
`None`; `ok (some img)` = a decoded image); `processResult` models
`self.pose.process` (`error` = it raises; `ok none` = no
`pose_landmarks`; `ok (some lms)` = the detected landmark list). -/
structure ExtractEnv where
  isFile : Bool
  imread : Except PyException (Option Image)
  processResult : Except PyException (Option (List Landmark))

/-- Environment of one whole process run of `extract_pose.py`.  `depsOk` is
whether `import cv2 / mediapipe / numpy` at module load succeeds, with
`importErrorMsg` the `str(e)` of the `ImportError` otherwise; `argv` is the
list of command-line arguments after the script name; `ctorException`
models an exception escaping to the outer guard of `main` (e.g. raised by
`PoseExtractor()` construction). -/
structure ProcessEnv where
  depsOk : Bool
  importErrorMsg : String
  argv : List String
  ctorException : Option PyException
  extractEnv : ExtractEnv

/-- The failure payload of the module import guard. -/
def missingDependencyPayload (e : String) : Payload :=
  { success := false
    error := some ("Missing Python dependency: " ++ e ++
      ". Please install required packages with: pip install opencv-python mediapipe numpy")
    keypoints := []
    confidence := 0 }

/-- The failure payload of the file-existence check. -/
def fileNotFoundPayload (image_path : String) : Payload :=
  { success := false
    error := some ("Image file not found: " ++ image_path)
    keypoints := []
    confidence := 0 }

/-- The failure payload of the decode check (`cv2.imread` returned `None`). -/
def couldNotReadPayload (image_path : String) : Payload :=
  { success := false
    error := some ("Could not read image file: " ++ image_path)
    keypoints := []
    confidence := 0 }

/-- The failure payload of the no-detection check. -/
def noPosePayload : Payload :=
  { success := false
    error := some "No pose detected in image"
    keypoints := []
    confidence := 0 }

/-- The failure payload of the `except` clause inside `extract_keypoints`. -/
def caughtExceptionPayload (e : PyException) : Payload :=
  { success := false
    error := some e.msg
    traceback := some e.tb
    keypoints := []
    confidence := 0 }

/-- The failure payload of the missing-argument check in `main`. -/
def noArgumentPayload : Payload :=
  { success := false
    error := some "No image path provided. Usage: python extract_pose.py <image_path>"
    keypoints := []
    confidence := 0 }

/-- The failure payload of the outer `except` clause of `main`. -/
def unexpectedErrorPayload (e : PyException) : Payload :=
  { success := false
    error := some ("Unexpected error: " ++ e.msg)
    traceback := some e.tb
    keypoints := []
    confidence := 0 }

/-- The static canonical landmark-name table of `_get_landmark_name`. -/
def landmark_names : List String :=
  ["NOSE", "LEFT_EYE_INNER", "LEFT_EYE", "LEFT_EYE_OUTER",
   "RIGHT_EYE_INNER", "RIGHT_EYE", "RIGHT_EYE_OUTER",
   "LEFT_EAR", "RIGHT_EAR", "MOUTH_LEFT", "MOUTH_RIGHT",
   "LEFT_SHOULDER", "RIGHT_SHOULDER", "LEFT_ELBOW", "RIGHT_ELBOW",
   "LEFT_WRIST", "RIGHT_WRIST", "LEFT_PINKY", "RIGHT_PINKY",
   "LEFT_INDEX", "RIGHT_INDEX", "LEFT_THUMB", "RIGHT_THUMB",
   "LEFT_HIP", "RIGHT_HIP", "LEFT_KNEE", "RIGHT_KNEE",
   "LEFT_ANKLE", "RIGHT_ANKLE", "LEFT_HEEL", "RIGHT_HEEL",
   "LEFT_FOOT_INDEX", "RIGHT_FOOT_INDEX"]

/-- `_get_landmark_name`: the table entry when the (non-negative) index is
in bounds, otherwise the dynamically formed `LANDMARK_<idx>` string. -/
def _get_landmark_name (idx : Nat) : String :=
  if idx < landmark_names.length then landmark_names.getD idx ""
  else "LANDMARK_" ++ toString idx

/-- The keypoint dict built for index `idx` and landmark `lm` in the
extraction loop of `extract_keypoints`. -/
def mkKeypoint (idx : Nat) (lm : Landmark) : Keypoint :=
  { id := idx
    name := _get_landmark_name idx
    x := lm.x
    y := lm.y
    z := lm.z
    visibility := lm.visibility }

/-- `PoseExtractor.extract_keypoints`: the linear sequence of checks of the
script, each failure returning its payload, the success path enumerating
the landmarks into keypoints and averaging visibility into confidence. -/
def extract_keypoints (env : ExtractEnv) (image_path : String) : Payload :=
  if ¬ env.isFile then fileNotFoundPayload image_path
  else
    match env.imread with
    | Except.error e => caughtExceptionPayload e
    | Except.ok none => couldNotReadPayload image_path
    | Except.ok (some image) =>
      match env.processResult with
      | Except.error e => caughtExceptionPayload e
      | Except.ok none => noPosePayload
      | Except.ok (some lms) =>
        let keypoints := lms.enum.map (fun p => mkKeypoint p.1 p.2)
        let total_confidence := (lms.map Landmark.visibility).sum
        let avg_confidence : ℚ :=
          if keypoints.isEmpty then 0
          else total_confidence / (keypoints.length : ℚ)
        { success := true
          keypoints := keypoints
          keypoints_count := some keypoints.length
          confidence := avg_confidence
          image_dimensions := some (image.width, image.height)
          pose_detected := some true }

/-- One whole process run of `extract_pose.py`: the import guard, then
`main` (argument check, `PoseExtractor()` under the outer guard, then
`extract_keypoints`).  Returns the printed payload and the exit status. -/
def runProcess (env : ProcessEnv) : Payload × Nat :=
  if ¬ env.depsOk then (missingDependencyPayload env.importErrorMsg, 1)
  else if env.argv.length < 1 then (noArgumentPayload, 1)
  else
    match env.ctorException with
    | some e => (unexpectedErrorPayload e, 1)
    | none => (extract_keypoints env.extractEnv (env.argv.headD ""), 0)

/-- The error taxonomy of the spec, read off the return sites of the code;
the exception caught by the inner guard of `extract_keypoints` is a
distinct return site from the one escaping to the outer guard of `main`. -/
inductive Outcome
  | missingDependency
  | missingArgument
  | unexpectedException
  | fileNotFound
  | unreadableImage
  | caughtException
  | noPoseDetected
  | success
deriving DecidableEq

/-- Which return site a process run with environment `env` reaches. -/
def classify (env : ProcessEnv) : Outcome :=
  if ¬ env.depsOk then Outcome.missingDependency
  else if env.argv.length < 1 then Outcome.missingArgument
  else
    match env.ctorException with
    | some _ => Outcome.unexpectedException
    | none =>
      if ¬ env.extractEnv.isFile then Outcome.fileNotFound
      else
        match env.extractEnv.imread with
        | Except.error _ => Outcome.caughtException
        | Except.ok none => Outcome.unreadableImage
        | Except.ok (some _) =>
          match env.extractEnv.processResult with
          | Except.error _ => Outcome.caughtException
          | Except.ok none => Outcome.noPoseDetected
          | Except.ok (some _) => Outcome.success

/-- Environment of one `diagnose.py` run: whether each of the three
libraries imports, and `sys.version`. -/
structure DiagEnv where
  cv2 : Bool
  mediapipe : Bool
  numpy : Bool
  pythonVersion : String

/-- The `dependencies` map of the diagnostic object: exactly the three
keys of the script, each a boolean. -/
structure Dependencies where
  cv2 : Bool
  mediapipe : Bool
  numpy : Bool
deriving DecidableEq

/-- The single JSON object `diagnose.py` prints. -/
structure DiagnoseResult where
  python_version : String
  dependencies : Dependencies
  all_dependencies_available : Bool
deriving DecidableEq

/-- One whole process run of `diagnose.py`: probe each library
independently, aggregate with `all(...)`, print, exit normally. -/
def diagnose (env : DiagEnv) : DiagnoseResult × Nat :=
  let deps : Dependencies :=
    { cv2 := env.cv2, mediapipe := env.mediapipe, numpy := env.numpy }
  ({ python_version := env.pythonVersion
     dependencies := deps
     all_dependencies_available := deps.cv2 && deps.mediapipe && deps.numpy },
   0)

/-- `pat` occurs as a contiguous substring of `s`. -/
def containsStr (s pat : String) : Prop :=
  pat.data <:+: s.data

instance (s pat : String) : Decidable (containsStr s pat) :=
  List.decidableInfix pat.data s.data

lemma containsStr_append_left (s t pat : String) (h : containsStr s pat) :
    containsStr (s ++ t) pat := by
  obtain ⟨u, v, huv⟩ := h
  exact ⟨u, v ++ t.data, by rw [String.data_append, ← huv]; simp⟩

lemma containsStr_append_right (s t pat : String) (h : containsStr t pat) :
    containsStr (s ++ t) pat := by
  obtain ⟨u, v, huv⟩ := h
  exact ⟨s.data ++ u, v, by rw [String.data_append, ← huv]; simp⟩

lemma not_length_lt_one_of_ne_nil {α : Type} {l : List α} (h : l ≠ []) :
    ¬ l.length < 1 := by
  cases l with
  | nil => exact absurd rfl h
  | cons a t => simp

lemma keypoints_map_id (lms : List Landmark) :
    ((lms.enum.map fun p => mkKeypoint p.1 p.2).map Keypoint.id) =
      List.range lms.length := by
  rw [List.map_map]
  have h : (Keypoint.id ∘ fun p : Nat × Landmark => mkKeypoint p.1 p.2) = Prod.fst :=
    funext fun p => rfl
  rw [h, List.enum_map_fst]

lemma keypoints_map_name (lms : List Landmark) :
    ((lms.enum.map fun p => mkKeypoint p.1 p.2).map Keypoint.name) =
      (List.range lms.length).map _get_landmark_name := by
  rw [List.map_map]
  have h : (Keypoint.name ∘ fun p : Nat × Landmark => mkKeypoint p.1 p.2) =
      (_get_landmark_name ∘ Prod.fst) := funext fun p => rfl
  rw [h, ← List.map_map, List.enum_map_fst]

lemma keypoints_map_visibility (lms : List Landmark) :
    ((lms.enum.map fun p => mkKeypoint p.1 p.2).map Keypoint.visibility) =
      lms.map Landmark.visibility := by
  rw [List.map_map]
  have h : (Keypoint.visibility ∘ fun p : Nat × Landmark => mkKeypoint p.1 p.2) =
      (Landmark.visibility ∘ Prod.snd) := funext fun p => rfl
  rw [h, ← List.map_map, List.enum_map_snd]

/-- The name table mapped over indices 0..32 reproduces the table itself. -/
lemma range_map_landmark_name :
    (List.range 33).map _get_landmark_name = landmark_names := by decide

/-- C10: the landmark-name lookup is total: the canonical table entry for
every index below 33 (the table has exactly 33 entries), and the
dynamically formed string `LANDMARK_<idx>` for every index of 33 or more. -/
theorem claim_C10_landmark_name_total :
    landmark_names.length = 33 ∧
    (∀ idx : Nat, idx < 33 → _get_landmark_name idx = landmark_names.getD idx "") ∧
    (∀ idx : Nat, 33 ≤ idx → _get_landmark_name idx = "LANDMARK_" ++ toString idx) := by
  refine ⟨rfl, fun idx h => ?_, fun idx h => ?_⟩
  · simp [_get_landmark_name, landmark_names] at h ⊢
    omega
  · rw [_get_landmark_name, if_neg]
    simp [landmark_names]
    omega

/-- Witness for C10 at indices 7 and 40. -/
theorem claim_C10_landmark_name_total_witness :
    (7 < 33 ∧ _get_landmark_name 7 = landmark_names.getD 7 "") ∧
    (33 ≤ 40 ∧ _get_landmark_name 40 = "LANDMARK_" ++ toString 40) :=
  ⟨⟨by decide, claim_C10_landmark_name_total.2.1 7 (by decide)⟩,
   ⟨by decide, claim_C10_landmark_name_total.2.2 40 (by decide)⟩⟩

/-- C8: `diagnose.py` always exits 0, reports the runtime version string,
one boolean per library depending only on that library's own importability,
and `all_dependencies_available` true exactly when all three are. -/
theorem claim_C8_diagnose_report (env : DiagEnv) :
    (diagnose env).2 = 0 ∧
    (diagnose env).1.python_version = env.pythonVersion ∧
    (diagnose env).1.dependencies.cv2 = env.cv2 ∧
    (diagnose env).1.dependencies.mediapipe = env.mediapipe ∧
    (diagnose env).1.dependencies.numpy = env.numpy ∧
    ((diagnose env).1.all_dependencies_available = true ↔
      env.cv2 = true ∧ env.mediapipe = true ∧ env.numpy = true) := by
  refine ⟨rfl, rfl, rfl, rfl, rfl, ?_⟩
  simp [diagnose, and_assoc]

/-- On the success path (file exists, image decodes, a pose is detected,
no exception) `extract_keypoints` returns exactly the success dict of the
script. -/
lemma extract_keypoints_success_eq (env : ExtractEnv) (image_path : String)
    (img : Image) (lms : List Landmark)
    (hfile : env.isFile = true)
    (hread : env.imread = Except.ok (some img))
    (hdetect : env.processResult = Except.ok (some lms)) :
    extract_keypoints env image_path =
      { success := true
        keypoints := lms.enum.map (fun p => mkKeypoint p.1 p.2)
        keypoints_count := some (lms.enum.map (fun p => mkKeypoint p.1 p.2)).length
        confidence :=
          if (lms.enum.map (fun p => mkKeypoint p.1 p.2)).isEmpty then 0
          else (lms.map Landmark.visibility).sum /
            ((lms.enum.map (fun p => mkKeypoint p.1 p.2)).length : ℚ)
        image_dimensions := some (img.width, img.height)
        pose_detected := some true } := by
  obtain ⟨f, ir, pr⟩ := env
  simp only at hfile hread hdetect
  subst hfile
  subst hread
  subst hdetect
  rfl

/-- C1: when the run reaches the success path with a detected landmark list
of the model's 33 points, the Success payload has exactly 33 keypoints,
their ids are exactly 0..32 in order, their names are exactly the canonical
table (so each keypoint's name is the table entry at its id), and
`keypoints_count` is 33. -/
theorem claim_C1_success_keypoints (env : ExtractEnv) (image_path : String)
    (img : Image) (lms : List Landmark)
    (hfile : env.isFile = true)
    (hread : env.imread = Except.ok (some img))
    (hdetect : env.processResult = Except.ok (some lms))
    (hlen : lms.length = 33) :
    (extract_keypoints env image_path).success = true ∧
    (extract_keypoints env image_path).keypoints.length = 33 ∧
    (extract_keypoints env image_path).keypoints_count = some 33 ∧
    (extract_keypoints env image_path).keypoints.map Keypoint.id = List.range 33 ∧
    (extract_keypoints env image_path).keypoints.map Keypoint.name = landmark_names := by
  rw [extract_keypoints_success_eq env image_path img lms hfile hread hdetect]
  refine ⟨rfl, ?_, ?_, ?_, ?_⟩
  · show (lms.enum.map (fun p => mkKeypoint p.1 p.2)).length = 33
    simp [List.enum_length, hlen]
  · show some (lms.enum.map (fun p => mkKeypoint p.1 p.2)).length = some 33
    simp [List.enum_length, hlen]
  · show (lms.enum.map (fun p => mkKeypoint p.1 p.2)).map Keypoint.id = List.range 33
    rw [keypoints_map_id, hlen]
  · show (lms.enum.map (fun p => mkKeypoint p.1 p.2)).map Keypoint.name = landmark_names
    rw [keypoints_map_name, hlen, range_map_landmark_name]

def wImg : Image := ⟨640, 480⟩

def wLms33 : List Landmark := List.replicate 33 ⟨0, 0, 0, 1⟩

def wEnvC1 : ExtractEnv := ⟨true, Except.ok (some wImg), Except.ok (some wLms33)⟩

/-- Witness for C1 on a concrete 33-landmark detection. -/
theorem claim_C1_success_keypoints_witness :
    wEnvC1.isFile = true ∧ wLms33.length = 33 ∧
    (extract_keypoints wEnvC1 "person.png").keypoints.map Keypoint.name = landmark_names :=
  ⟨rfl, by decide,
   (claim_C1_success_keypoints wEnvC1 "person.png" wImg wLms33 rfl rfl rfl
     (by decide)).2.2.2.2⟩

/-- C2: every Success payload reports as confidence the arithmetic mean of
the visibility scores of the extracted keypoints, and 0 when the keypoint
list is empty.  Over the rational model the equality is exact, which
entails the spec's 1e-6 tolerance. -/
theorem claim_C2_confidence_is_mean (env : ExtractEnv) (image_path : String)
    (img : Image) (lms : List Landmark)
    (hfile : env.isFile = true)
    (hread : env.imread = Except.ok (some img))
    (hdetect : env.processResult = Except.ok (some lms)) :
    (extract_keypoints env image_path).confidence =
      if (extract_keypoints env image_path).keypoints.isEmpty then 0
      else ((extract_keypoints env image_path).keypoints.map Keypoint.visibility).sum /
        ((extract_keypoints env image_path).keypoints.length : ℚ) := by
  rw [extract_keypoints_success_eq env image_path img lms hfile hread hdetect]
  show (if (lms.enum.map (fun p => mkKeypoint p.1 p.2)).isEmpty then (0 : ℚ)
      else (lms.map Landmark.visibility).sum /
        ((lms.enum.map (fun p => mkKeypoint p.1 p.2)).length : ℚ)) =
    if (lms.enum.map (fun p => mkKeypoint p.1 p.2)).isEmpty then 0
    else ((lms.enum.map (fun p => mkKeypoint p.1 p.2)).map Keypoint.visibility).sum /
      ((lms.enum.map (fun p => mkKeypoint p.1 p.2)).length : ℚ)
  rw [keypoints_map_visibility]

def wLms2 : List Landmark := [⟨0, 0, 0, 1/2⟩, ⟨0, 0, 0, 1/4⟩]

def wEnvC2 : ExtractEnv := ⟨true, Except.ok (some wImg), Except.ok (some wLms2)⟩

/-- Witness for C2 on a concrete detection with visibilities 1/2 and 1/4:
the reported confidence is their mean 3/8. -/
theorem claim_C2_confidence_is_mean_witness :
    (extract_keypoints wEnvC2 "person.png").confidence =
      (if (extract_keypoints wEnvC2 "person.png").keypoints.isEmpty then 0
       else ((extract_keypoints wEnvC2 "person.png").keypoints.map Keypoint.visibility).sum /
         ((extract_keypoints wEnvC2 "person.png").keypoints.length : ℚ)) ∧
    (extract_keypoints wEnvC2 "person.png").confidence = 3 / 8 :=
  ⟨claim_C2_confidence_is_mean wEnvC2 "person.png" wImg wLms2 rfl rfl rfl, by
    norm_num [wEnvC2, wLms2, wImg, extract_keypoints, mkKeypoint, List.enum,
      List.enumFrom]⟩

/-- C3: the process exit status is nonzero exactly for the missing-argument,
missing-dependency and outer-guard (unexpected-exception) return sites; the
file-not-found, unreadable-image and no-pose return sites exit 0, still
printing a Failure payload — as does every nonzero exit. -/
theorem claim_C3_exit_codes (env : ProcessEnv) :
    ((runProcess env).2 ≠ 0 ↔
      (classify env = Outcome.missingArgument ∨
       classify env = Outcome.missingDependency ∨
       classify env = Outcome.unexpectedException)) ∧
    ((classify env = Outcome.fileNotFound ∨
      classify env = Outcome.unreadableImage ∨
      classify env = Outcome.noPoseDetected) →
      (runProcess env).2 = 0 ∧ (runProcess env).1.success = false) ∧
    ((runProcess env).2 ≠ 0 → (runProcess env).1.success = false) := by
  obtain ⟨deps, ierr, argv, ctor, ⟨isf, imr, pr⟩⟩ := env
  cases deps <;> cases isf <;>
    rcases ctor with _ | e <;>
    rcases argv with _ | ⟨a, rest⟩ <;>
    rcases imr with e2 | _ | img <;>
    rcases pr with e3 | _ | lms <;>
    simp [runProcess, classify, extract_keypoints, missingDependencyPayload,
      noArgumentPayload, unexpectedErrorPayload, fileNotFoundPayload,
      couldNotReadPayload, noPosePayload, caughtExceptionPayload]

def wEnvC3 : ProcessEnv :=
  ⟨true, "", ["ghost.png"], none, ⟨false, Except.ok none, Except.ok none⟩⟩

/-- Witness for C3 at a concrete file-not-found run. -/
theorem claim_C3_exit_codes_witness :
    (classify wEnvC3 = Outcome.fileNotFound ∨
     classify wEnvC3 = Outcome.unreadableImage ∨
     classify wEnvC3 = Outcome.noPoseDetected) ∧
    (runProcess wEnvC3).2 = 0 ∧ (runProcess wEnvC3).1.success = false :=
  ⟨Or.inl rfl, (claim_C3_exit_codes wEnvC3).2.1 (Or.inl rfl)⟩

/-- C9: every failure return site of the extractor — missing argument,
missing dependency, file not found, unreadable image, no pose detected,
caught exception (inner or outer guard) — prints a payload with
`success = false`, an empty `keypoints` list and `confidence = 0.0`. -/
theorem claim_C9_failure_payload (env : ProcessEnv)
    (h : classify env ≠ Outcome.success) :
    (runProcess env).1.success = false ∧
    (runProcess env).1.keypoints = [] ∧
    (runProcess env).1.confidence = 0 := by
  obtain ⟨deps, ierr, argv, ctor, ⟨isf, imr, pr⟩⟩ := env
  cases deps <;> cases isf <;>
    rcases ctor with _ | e <;>
    rcases argv with _ | ⟨a, rest⟩ <;>
    rcases imr with e2 | _ | img <;>
    rcases pr with e3 | _ | lms <;>
    simp_all [runProcess, classify, extract_keypoints, missingDependencyPayload,
      noArgumentPayload, unexpectedErrorPayload, fileNotFoundPayload,
      couldNotReadPayload, noPosePayload, caughtExceptionPayload]

def wEnvC9 : ProcessEnv :=
  ⟨true, "", [], none, ⟨true, Except.ok none, Except.ok none⟩⟩

/-- Witness for C9 at a concrete missing-argument run. -/
theorem claim_C9_failure_payload_witness :
    classify wEnvC9 ≠ Outcome.success ∧
    (runProcess wEnvC9).1.success = false ∧
    (runProcess wEnvC9).1.keypoints = [] ∧
    (runProcess wEnvC9).1.confidence = 0 :=
  ⟨by decide, claim_C9_failure_payload wEnvC9 (by decide)⟩

/-- When the import guard, argument check and outer guard all pass, the
process prints the `extract_keypoints` payload and exits 0. -/
lemma runProcess_extract_eq (env : ProcessEnv)
    (hdeps : env.depsOk = true)
    (harg : env.argv ≠ [])
    (hctor : env.ctorException = none) :
    runProcess env = (extract_keypoints env.extractEnv (env.argv.headD ""), 0) := by
  have hlen := not_length_lt_one_of_ne_nil harg
  unfold runProcess
  rw [hdeps, hctor, if_neg hlen]
  simp

/-- C4: a run on a path that is not an existing regular file prints a
Failure payload whose error message contains "not found", and exits 0. -/
theorem claim_C4_file_not_found (env : ProcessEnv)
    (hdeps : env.depsOk = true)
    (harg : env.argv ≠ [])
    (hctor : env.ctorException = none)
    (hfile : env.extractEnv.isFile = false) :
    (runProcess env).2 = 0 ∧
    (runProcess env).1.success = false ∧
    (runProcess env).1.error = some ("Image file not found: " ++ env.argv.headD "") ∧
    containsStr ("Image file not found: " ++ env.argv.headD "") "not found" := by
  have hrun := runProcess_extract_eq env hdeps harg hctor
  have hex : extract_keypoints env.extractEnv (env.argv.headD "") =
      fileNotFoundPayload (env.argv.headD "") := by
    unfold extract_keypoints
    rw [hfile]
    simp
  refine ⟨by rw [hrun], by rw [hrun, hex]; rfl, by rw [hrun, hex]; rfl, ?_⟩
  exact containsStr_append_left _ _ _ (by decide)

def wEnvC4 : ProcessEnv :=
  ⟨true, "", ["missing.png"], none, ⟨false, Except.ok none, Except.ok none⟩⟩

/-- Witness for C4 at a concrete non-existent path. -/
theorem claim_C4_file_not_found_witness :
    wEnvC4.extractEnv.isFile = false ∧
    (runProcess wEnvC4).2 = 0 ∧
    (runProcess wEnvC4).1.success = false ∧
    (runProcess wEnvC4).1.error = some ("Image file not found: " ++ wEnvC4.argv.headD "") ∧
    containsStr ("Image file not found: " ++ wEnvC4.argv.headD "") "not found" :=
  ⟨rfl, claim_C4_file_not_found wEnvC4 rfl (by decide) rfl rfl⟩

def wEnvC5 : ProcessEnv :=
  ⟨true, "", ["data.bin"], none, ⟨true, Except.ok none, Except.ok none⟩⟩

/-- Counterexample to C5 as stated: on an existing file whose bytes do not
decode, the printed error message is "Could not read image file: data.bin",
which does not contain the (case-sensitive) substring "could not read". -/
theorem claim_C5_counterexample :
    (runProcess wEnvC5).2 = 0 ∧
    (runProcess wEnvC5).1.success = false ∧
    (runProcess wEnvC5).1.error = some "Could not read image file: data.bin" ∧
    ¬ containsStr "Could not read image file: data.bin" "could not read" :=
  ⟨rfl, rfl, rfl, by decide⟩

/-- C5 (amended): a run on an existing regular file whose bytes cannot be
decoded into an image prints a Failure payload whose error message contains
"Could not read" (capitalised as the code writes it), and exits 0. -/
theorem claim_C5_could_not_read (env : ProcessEnv)
    (hdeps : env.depsOk = true)
    (harg : env.argv ≠ [])
    (hctor : env.ctorException = none)
    (hfile : env.extractEnv.isFile = true)
    (hread : env.extractEnv.imread = Except.ok none) :
    (runProcess env).2 = 0 ∧
    (runProcess env).1.success = false ∧
    (runProcess env).1.error = some ("Could not read image file: " ++ env.argv.headD "") ∧
    containsStr ("Could not read image file: " ++ env.argv.headD "") "Could not read" := by
  have hrun := runProcess_extract_eq env hdeps harg hctor
  have hex : extract_keypoints env.extractEnv (env.argv.headD "") =
      couldNotReadPayload (env.argv.headD "") := by
    unfold extract_keypoints
    rw [hfile, hread]
    simp
  refine ⟨by rw [hrun], by rw [hrun, hex]; rfl, by rw [hrun, hex]; rfl, ?_⟩
  exact containsStr_append_left _ _ _ (by decide)

/-- Witness for the amended C5 at a concrete undecodable file. -/
theorem claim_C5_could_not_read_witness :
    wEnvC5.extractEnv.isFile = true ∧
    (runProcess wEnvC5).2 = 0 ∧
    (runProcess wEnvC5).1.success = false ∧
    (runProcess wEnvC5).1.error = some ("Could not read image file: " ++ wEnvC5.argv.headD "") ∧
    containsStr ("Could not read image file: " ++ wEnvC5.argv.headD "") "Could not read" :=
  ⟨rfl, claim_C5_could_not_read wEnvC5 rfl (by decide) rfl rfl rfl⟩

/-- C6: a run with zero positional arguments prints the usage-hint Failure
payload and exits 1. -/
theorem claim_C6_no_argument (env : ProcessEnv)
    (hdeps : env.depsOk = true)
    (harg : env.argv = []) :
    (runProcess env).2 = 1 ∧
    (runProcess env).1 = noArgumentPayload ∧
    (runProcess env).1.success = false ∧
    (runProcess env).1.error =
      some "No image path provided. Usage: python extract_pose.py <image_path>" ∧
    containsStr "No image path provided. Usage: python extract_pose.py <image_path>"
      "Usage:" := by
  have hrun : runProcess env = (noArgumentPayload, 1) := by
    unfold runProcess
    rw [hdeps, harg]
    simp
  exact ⟨by rw [hrun], by rw [hrun], by rw [hrun]; rfl, by rw [hrun]; rfl, by decide⟩

def wEnvC6 : ProcessEnv :=
  ⟨true, "", [], none, ⟨true, Except.ok none, Except.ok none⟩⟩

/-- Witness for C6 at a concrete zero-argument run. -/
theorem claim_C6_no_argument_witness :
    wEnvC6.argv = [] ∧
    (runProcess wEnvC6).2 = 1 ∧
    (runProcess wEnvC6).1 = noArgumentPayload :=
  ⟨rfl, (claim_C6_no_argument wEnvC6 rfl rfl).1, (claim_C6_no_argument wEnvC6 rfl rfl).2.1⟩

/-- C7: when any required library fails to import, the process prints the
missing-dependency Failure payload — whose message names the dependency and
carries a pip install hint — exits 1, and does so independently of the
arguments and of any image handling (the result is unchanged under any
argument list, outer exception or extraction environment). -/
theorem claim_C7_missing_dependency (env : ProcessEnv)
    (h : env.depsOk = false) :
    (runProcess env).2 = 1 ∧
    (runProcess env).1 = missingDependencyPayload env.importErrorMsg ∧
    (runProcess env).1.success = false ∧
    (runProcess env).1.error = some ("Missing Python dependency: " ++ env.importErrorMsg ++
      ". Please install required packages with: pip install opencv-python mediapipe numpy") ∧
    containsStr ("Missing Python dependency: " ++ env.importErrorMsg ++
      ". Please install required packages with: pip install opencv-python mediapipe numpy")
      "pip install" ∧
    ∀ (argv2 : List String) (ctor2 : Option PyException) (ext2 : ExtractEnv),
      runProcess { env with argv := argv2, ctorException := ctor2, extractEnv := ext2 } =
        runProcess env := by
  have hrun : runProcess env = (missingDependencyPayload env.importErrorMsg, 1) := by
    unfold runProcess
    rw [h]
    simp
  refine ⟨by rw [hrun], by rw [hrun], by rw [hrun]; rfl, by rw [hrun]; rfl, ?_, ?_⟩
  · exact containsStr_append_right _ _ _ (by decide)
  · intro argv2 ctor2 ext2
    have hrun2 : runProcess { env with argv := argv2, ctorException := ctor2, extractEnv := ext2 } = (missingDependencyPayload env.importErrorMsg, 1) := by
      unfold runProcess
      simp [h]
    rw [hrun2, hrun]

def wEnvC7 : ProcessEnv :=
  ⟨false, "No module named cv2", ["img.png"], none, ⟨true, Except.ok none, Except.ok none⟩⟩

/-- Witness for C7 at a concrete failed import. -/
theorem claim_C7_missing_dependency_witness :
    wEnvC7.depsOk = false ∧
    (runProcess wEnvC7).2 = 1 ∧
    (runProcess wEnvC7).1 = missingDependencyPayload wEnvC7.importErrorMsg :=
  ⟨rfl, (claim_C7_missing_dependency wEnvC7 rfl).1, (claim_C7_missing_dependency wEnvC7 rfl).2.1⟩
